import Mathlib

/-!
# RailsRPA — verification of the specification against the code

Shallow embedding of the Discord/AdsPower automation tool
(`main.py`, `src/adspower_api.py`, `src/automation_manager.py`,
`src/discord_automation.py`).  Pure decision logic is translated to
executable Lean functions; interactions with the browser, filesystem and
network are abstracted as explicit state records whose fields record the
outcome of each external observation the Python code makes.
-/

namespace RailsRPA

/-! ## Python string primitives

The Python code manipulates usernames and status messages with
`str.lower`, `str.strip`, `str.split('#')[0]`, slicing and the substring
test `a in b`.  These are modelled on `String` via the underlying
character list. -/

/-- `s.lower()` —  character-wise lowercasing (the messages the claims
depend on are ASCII, where `Char.toLower` agrees with Python). -/
def pyLower (s : String) : String := ⟨s.data.map Char.toLower⟩

/-- Strip leading and trailing whitespace from a character list. -/
def stripList (l : List Char) : List Char :=
  ((l.dropWhile Char.isWhitespace).reverse.dropWhile Char.isWhitespace).reverse

/-- `s.strip()`. -/
def pyStrip (s : String) : String := ⟨stripList s.data⟩

/-- `s[:n]` — Python slice of the first `n` characters. -/
def pyTake (s : String) (n : Nat) : String := ⟨s.data.take n⟩

/-- `s.split('#')[0]` — the prefix of `s` before the first `'#'`
(equals `s` when there is no `'#'`, exactly as in Python). -/
def dropDiscriminator (s : String) : String := ⟨s.data.takeWhile (· ≠ '#')⟩

/-- The Python substring test `needle in hay`, as a Bool. -/
def containsSub (needle hay : String) : Bool := decide (needle.data <:+: hay.data)

/-! ## `DiscordAutomation.verify_username` (discord_automation.py 135-191) -/

/-- The normalisation `verify_username` applies to both usernames:
`lower()`, `strip()`, then drop a `'#'`-suffixed discriminator. -/
def clean_username (s : String) : String := dropDiscriminator (pyStrip (pyLower s))

/-- The match test of `verify_username` (discord_automation.py 175-179):
exact equality, expected contained in actual, or actual contained in
expected, after normalisation. -/
def username_is_match (expected actual : String) : Bool :=
  decide (clean_username expected = clean_username actual) ||
  containsSub (clean_username expected) (clean_username actual) ||
  containsSub (clean_username actual) (clean_username expected)

/-- `verify_username` given the detection result of
`get_discord_username` (`none` = detection failed).  Returns
(match, actual_username, message). -/
def verify_username (expected : String) (detected : Option String) :
    Bool × String × String :=
  if pyStrip expected = "" then
    (true, "", "Username verification skipped (no expected username)")
  else
    match detected with
    | none => (true, "", "Username verification skipped (could not detect username)")
    | some actual =>
      if username_is_match expected actual then
        (true, actual, "Username verified: " ++ expected)
      else
        (false, actual,
          "Username mismatch: expected " ++ expected ++ ", got " ++ actual)

/-! ## `AdsPowerAPI._get_profile_params` / `start_profile` guard
(adspower_api.py 28-45, 65-67) -/

/-- A serial number may arrive as an int or a string; `str(serial_number)`. -/
def pyStrOfSerial : Int ⊕ String → String
  | Sum.inl n => toString n
  | Sum.inr s => s

/-- `_get_profile_params`: serial number (stringified) wins over the
profile id; a falsy profile id (absent or empty) with no serial number
yields an empty parameter map. -/
def get_profile_params (profile_id : Option String)
    (serial_number : Option (Int ⊕ String)) : List (String × String) :=
  match serial_number with
  | some sn => [("serial_number", pyStrOfSerial sn)]
  | none =>
    match profile_id with
    | some p => if p = "" then [] else [("user_id", p)]
    | none => []

/-- The identifier-dependent part of `start_profile`: with both
identifiers falsy it returns failure before any request is issued
(adspower_api.py 65-67); otherwise the request parameters are
`_get_profile_params` plus the fixed `open_tabs` flag
(adspower_api.py 73-74). -/
def start_profile_request (profile_id : Option String)
    (serial_number : Option (Int ⊕ String)) : Option (List (String × String)) :=
  if (profile_id = none ∨ profile_id = some "") ∧ serial_number = none then none
  else some (get_profile_params profile_id serial_number ++ [("open_tabs", "0")])

/-! ## `AdsPowerAPI._format_ws_endpoint` (adspower_api.py 208-262)

The capability probe (HTTP GET of `/json/version`) is abstracted as a
parameter `probe : Option (Option String)`:
* `none` — the GET raised or returned a non-200 status;
* `some none` — 200 response whose JSON lacks `webSocketDebuggerUrl`;
* `some (some u)` — 200 response carrying `webSocketDebuggerUrl = u`
  (possibly the empty string, which Python treats as falsy). -/

/-- `endpoint.startswith(("ws://", "wss://", "http://", "https://"))`. -/
def has_url_scheme (s : String) : Bool :=
  decide ("ws://".data <+: s.data) || decide ("wss://".data <+: s.data) ||
  decide ("http://".data <+: s.data) || decide ("https://".data <+: s.data)

/-- `int(portStr)` modelled on plain digit strings; any other form makes
the Python call raise `ValueError` (signs and surrounding whitespace,
which Python would also accept, do not occur in `host:port` endpoints). -/
def parse_digits (l : List Char) : Option Nat :=
  if l ≠ [] ∧ l.all Char.isDigit then
    some (l.foldl (fun a c => a * 10 + (c.toNat - 48)) 0)
  else none

/-- `endpoint.rsplit(":", 1)`: split at the last colon, `none` when the
string has no colon. -/
def rsplit_colon (l : List Char) : Option (List Char × List Char) :=
  let suf := (l.reverse.takeWhile (· ≠ ':')).reverse
  if suf.length = l.length then none
  else some (l.take (l.length - suf.length - 1), suf)

/-- `debug_port or 9222` — Python `or` treats `None` and `0` as falsy. -/
def effective_port (debug_port : Option Nat) : Nat :=
  match debug_port with
  | some d => if d ≠ 0 then d else 9222
  | none => 9222

/-- The probe-and-fallback tail of `_format_ws_endpoint`
(adspower_api.py 242-257): a 200 probe with a truthy
`webSocketDebuggerUrl` is returned verbatim, everything else falls back
to `http://host:port`. -/
def probe_result (host : String) (port : Nat)
    (probe : Option (Option String)) : String :=
  match probe with
  | some (some u) =>
    if u ≠ "" then u else "http://" ++ host ++ ":" ++ toString port
  | _ => "http://" ++ host ++ ":" ++ toString port

/-- `_format_ws_endpoint`.  Scheme-prefixed endpoints pass through; a
scheme-less endpoint is split into host and port (port from the last
colon segment, or the debug port / 9222 when no colon), the probe is
consulted, and a failing or unusable probe falls back to
`http://host:port`.  A port that `int()` rejects takes the outer
`except` path, returning the original endpoint. -/
def format_ws_endpoint (endpoint : String) (debug_port : Option Nat)
    (probe : Option (Option String)) : String :=
  if endpoint = "" then endpoint
  else if has_url_scheme endpoint then endpoint
  else
    match rsplit_colon endpoint.data with
    | some (h, p) =>
      match parse_digits p with
      | some n => probe_result ⟨h⟩ n probe
      | none => endpoint
    | none => probe_result endpoint (effective_port debug_port) probe

/-! ## `AdsPowerAPI.start_profile` endpoint selection
(adspower_api.py 80-129)

The parsed JSON response is modelled by `StartResponse`; the `ws` map is
an association list (`data = none` covers both a missing and an empty
`data` object, which the code treats alike at line 84). -/

structure WsData where
  ws : List (String × String)
  debug_port : Option Nat
  webdriver : Option String
deriving DecidableEq, Repr

structure StartResponse where
  code : Int
  data : Option WsData
deriving DecidableEq, Repr

/-- `ws_dict.get(key)`. -/
def dict_get (k : String) (d : List (String × String)) : Option String :=
  (d.find? (fun kv => kv.1 == k)).map (·.2)

/-- Python truthiness of an optional string (`None` and `""` are falsy). -/
def truthy : Option String → Bool
  | some s => s != ""
  | none => false

/-- Python `a or b` on optional strings: first truthy operand, else `b`. -/
def py_or (a b : Option String) : Option String :=
  if truthy a then a else b

structure ConnInfo where
  ws_endpoint : String
  debug_port : Option Nat
  webdriver : Option String
deriving DecidableEq, Repr

/-- `start_profile` after a transport-successful request: on code 0 and
non-empty data, pick the endpoint from the `ws` map trying `playwright`
then `selenium`, `puppeteer`, `webdriver` (Python `or`-chain, so falsy
values are skipped), format it, and build the connection info; every
other shape fails with no connection info. -/
def start_profile_model (resp : StartResponse)
    (probe : Option (Option String)) : Option ConnInfo :=
  if resp.code = 0 then
    match resp.data with
    | none => none
    | some result =>
      let wsDict := result.ws
      let e0 := if wsDict ≠ [] then dict_get "playwright" wsDict else none
      let ep :=
        if truthy e0 then e0
        else if wsDict ≠ [] then
          let alt := py_or (dict_get "selenium" wsDict)
            (py_or (dict_get "puppeteer" wsDict) (dict_get "webdriver" wsDict))
          if truthy alt then alt else none
        else none
      match ep with
      | some e =>
        some ⟨format_ws_endpoint e result.debug_port probe,
          result.debug_port, result.webdriver⟩
      | none => none
  else none

/-! ## `DiscordAutomation._check_channel_access` and
`navigate_to_channel` (discord_automation.py 259-354, 479-595)

The page is abstracted by `AccessState` (what the denial-selector scan
and URL check observe) and `NavState` (the whole navigation attempt). -/

structure AccessState where
  /-- an exception escapes the scan: the outer handler answers
  accessible (discord_automation.py 351-354) -/
  checkRaises : Bool
  /-- a denial selector is visible; the inner option is the retrieved
  element text (`none` when `text_content` fails) -/
  errorSel : Option (Option String)
  /-- the current URL ends in `/channels/@me` -/
  redirectedToDMs : Bool
deriving DecidableEq, Repr

/-- `_check_channel_access`: (is_accessible, message). -/
def check_channel_access (st : AccessState) : Bool × String :=
  if st.checkRaises then (true, "Access check completed")
  else
    match st.errorSel with
    | some (some t) => (false, "Channel unavailable: " ++ pyTake t 100)
    | some none => (false, "Channel is not accessible on this profile")
    | none =>
      if st.redirectedToDMs then
        (false, "Channel not accessible - redirected to DMs")
      else (true, "Channel is accessible")

inductive InputReady
  /-- the message input becomes visible and focusable -/
  | ready
  /-- timeout while waiting for the input (limited functionality path) -/
  | notReady
  /-- a non-timeout error while verifying the input -/
  | raises
deriving DecidableEq, Repr

inductive NavExn
  | timeout
  | pwErr (msg : String)
  | unexpected (msg : String)
deriving DecidableEq, Repr

structure NavState where
  gotoFail : Option NavExn
  access1 : AccessState
  /-- some chat-surface marker became visible within the wait -/
  markerFound : Bool
  access2 : AccessState
  inputReady : InputReady
deriving DecidableEq, Repr

/-- `navigate_to_channel`: denial scan first, then the marker wait, then
a denial re-scan; only then is the absence of markers reported as the
generic load failure. -/
def navigate_to_channel (st : NavState) : Bool × String :=
  match st.gotoFail with
  | some NavExn.timeout => (false, "Navigation timeout - channel took too long to load")
  | some (NavExn.pwErr e) => (false, "Navigation error: " ++ e)
  | some (NavExn.unexpected e) => (false, "Unexpected error: " ++ e)
  | none =>
    let r1 := check_channel_access st.access1
    if ¬ r1.1 then (false, r1.2)
    else if ¬ st.markerFound then
      let r2 := check_channel_access st.access2
      if ¬ r2.1 then (false, r2.2)
      else (false, "Channel did not load - elements not found")
    else
      match st.inputReady with
      | InputReady.ready => (true, "Channel loaded successfully")
      | InputReady.notReady => (true, "Channel loaded (limited functionality)")
      | InputReady.raises => (true, "Channel loaded successfully")

/-- The orchestrator classification of a failed navigation message
(automation_manager.py 389-394). -/
def classify_nav_status (msg : String) : String :=
  if containsSub "access" (pyLower msg) || containsSub "unavailable" (pyLower msg)
  then "CHANNEL_UNAVAILABLE" else "FAILED"

/-! ## `DiscordAutomation._check_send_errors` and
`upload_and_send_image` (discord_automation.py 597-898) -/

structure SendErrState where
  /-- an exception escapes the scan: treated as no error detected -/
  checkRaises : Bool
  /-- a selector of one of the error groups is visible; the pair is the
  fixed message of the group and, optionally, the element text when it
  is non-empty and shorter than 200 characters -/
  groupHit : Option (String × Option String)
  /-- the slowmode countdown element is visible, optionally with text -/
  slowmodeTimer : Option (Option String)
deriving DecidableEq, Repr

/-- `_check_send_errors`: (error_found, error_message). -/
def check_send_errors (st : SendErrState) : Bool × String :=
  if st.checkRaises then (false, "")
  else
    match st.groupHit with
    | some (m, some t) => (true, m ++ ": " ++ t)
    | some (m, none) => (true, m)
    | none =>
      match st.slowmodeTimer with
      | some (some t) => (true, "Slowmode active: wait " ++ t)
      | some none => (true, "Slowmode active - please wait")
      | none => (false, "")

inductive UploadExn
  | timeout
  | pwErr (msg : String)
  | unexpected (msg : String)
deriving DecidableEq, Repr

structure UploadState where
  raised : Option UploadExn
  fileInputFound : Bool
  /-- `set_input_files` still failing after the retries -/
  setFilesError : Option String
  /-- first `_verify_message_sent` attempt succeeds -/
  verify1 : Bool
  /-- second `_verify_message_sent` attempt (after the wait) succeeds -/
  verify2 : Bool
  errState : SendErrState
deriving DecidableEq, Repr

/-- `upload_and_send_image`: after the send action, verification is
tried twice; only if both fail is the error scan consulted, and with no
error detected the stage still reports success. -/
def upload_and_send_image (st : UploadState) : Bool × String :=
  match st.raised with
  | some UploadExn.timeout => (false, "Upload timeout - operation took too long")
  | some (UploadExn.pwErr e) => (false, "Upload error: " ++ e)
  | some (UploadExn.unexpected e) => (false, "Unexpected error: " ++ e)
  | none =>
    if ¬ st.fileInputFound then (false, "File upload input not found")
    else
      match st.setFilesError with
      | some e => (false, "Failed to upload file: " ++ e)
      | none =>
        if st.verify1 then (true, "Image sent and verified successfully")
        else if st.verify2 then (true, "Image sent and verified successfully")
        else
          let ec := check_send_errors st.errState
          if ec.1 then (false, ec.2)
          else (true, "Image sent (no errors detected)")

/-! ## `AutomationManager._process_profile`
(automation_manager.py 275-435)

The per-profile pipeline is a function of the stage observations
(`ProcState`).  The Python `try`/`except`/`finally` structure translates
as: an exception inside the browser block yields the
`Automation error` outcome, one outside it the `Unexpected error`
outcome, and the `finally` block (close the remote profile, guarded by
`if profile_id`) runs on every path, so the pair returned below carries
the number of `close_profile` calls performed. -/

structure Outcome where
  status : String
  message : String
  expected_username : Option String := none
  actual_username : Option String := none
deriving DecidableEq, Repr

structure VerifyRes where
  ok : Bool
  actual : String
  msg : String
deriving DecidableEq, Repr

structure ProcState where
  /-- exception outside the browser block (automation_manager.py 423-425) -/
  outerRaise : Option String
  /-- `config.get_image_path` found the image -/
  imageFound : Bool
  /-- `adspower.start_profile` succeeded with connection info -/
  startOk : Bool
  /-- exception inside the browser block, e.g. `connect_over_cdp`
  failing (automation_manager.py 412-414) -/
  innerRaise : Option String
  contextsNonempty : Bool
  /-- result of `discord.check_authentication` -/
  auth : Bool × String
  /-- the effective `verify_username` setting -/
  verifyEnabled : Bool
  /-- result of `discord.verify_username` -/
  verify : VerifyRes
  /-- result of `discord.navigate_to_channel` -/
  nav : Bool × String
  /-- result of `discord.upload_and_send_image` -/
  upload : Bool × String
deriving DecidableEq, Repr

/-- `_process_profile`: the single outcome dict together with the number
of `close_profile` stop requests issued by the `finally` block. -/
def process_profile (profile_id image_name expected_username : String)
    (st : ProcState) : Outcome × Nat :=
  let outcome : Outcome :=
    match st.outerRaise with
    | some e => ⟨"FAILED", "Unexpected error: " ++ e, none, none⟩
    | none =>
      if ¬ st.imageFound then
        ⟨"FAILED", "Image not found: " ++ image_name, none, none⟩
      else if ¬ st.startOk then
        ⟨"FAILED", "Could not start AdsPower profile", none, none⟩
      else
        match st.innerRaise with
        | some e => ⟨"FAILED", "Automation error: " ++ e, none, none⟩
        | none =>
          if ¬ st.contextsNonempty then
            ⟨"FAILED", "No browser contexts found", none, none⟩
          else if ¬ st.auth.1 then ⟨"NOT_AUTHENTICATED", st.auth.2, none, none⟩
          else if expected_username ≠ "" ∧ st.verifyEnabled ∧ ¬ st.verify.ok then
            ⟨"USERNAME_MISMATCH", st.verify.msg,
              some expected_username, some st.verify.actual⟩
          else if ¬ st.nav.1 then
            ⟨classify_nav_status st.nav.2, st.nav.2, none, none⟩
          else if ¬ st.upload.1 then ⟨"FAILED", st.upload.2, none, none⟩
          else ⟨"SUCCESS", "Image sent successfully", none, none⟩
  (outcome, if profile_id ≠ "" then 1 else 0)

/-! ## Statistics (automation_manager.py 95-98, 238-273)

Counter updates are the lock-protected `_update_stats` calls; a run is a
trace of such events.  `StatEvent.incTotal` is the `total` increment a
profile receives before processing; `StatEvent.finish s` is the
`_handle_result` dispatch on its outcome status (the threaded
`Thread error` path is the `finish` of an unmatched status). -/

structure Stats where
  total : Int
  successful : Int
  failed : Int
  skipped : Int
  not_authenticated : Int
  channel_unavailable : Int
  username_mismatch : Int
deriving DecidableEq, Repr

def initStats : Stats := ⟨0, 0, 0, 0, 0, 0, 0⟩

/-- The counter part of `_handle_result`. -/
def handle_result_stats (s : Stats) (status : String) : Stats :=
  if status = "SUCCESS" then { s with successful := s.successful + 1 }
  else if status = "NOT_AUTHENTICATED" then
    { s with not_authenticated := s.not_authenticated + 1, failed := s.failed + 1 }
  else if status = "CHANNEL_UNAVAILABLE" then
    { s with channel_unavailable := s.channel_unavailable + 1, failed := s.failed + 1 }
  else if status = "USERNAME_MISMATCH" then
    { s with username_mismatch := s.username_mismatch + 1, failed := s.failed + 1 }
  else { s with failed := s.failed + 1 }

inductive StatEvent
  | incTotal
  | finish (status : String)
deriving DecidableEq, Repr

def applyStatEvent (s : Stats) : StatEvent → Stats
  | StatEvent.incTotal => { s with total := s.total + 1 }
  | StatEvent.finish st => handle_result_stats s st

def runStatEvents (s : Stats) (es : List StatEvent) : Stats :=
  es.foldl applyStatEvent s

def countTotals (es : List StatEvent) : Nat :=
  es.countP (fun e => match e with | StatEvent.incTotal => true | _ => false)

def countFinishes (es : List StatEvent) : Nat :=
  es.countP (fun e => match e with | StatEvent.finish _ => true | _ => false)

/-- A trace is well formed when every prefix has at least as many
`total` increments as result dispatches: in both the sequential and the
threaded runner each profile increments `total` before its result is
handled. -/
def statTraceWF (es : List StatEvent) : Bool :=
  (List.range (es.length + 1)).all
    (fun n => countFinishes (es.take n) ≤ countTotals (es.take n))

/-! ## `main` exit codes (main.py 94-240) -/

inductive TopExn
  /-- `KeyboardInterrupt` reaching the top-level handler -/
  | interrupt
  /-- any other exception reaching the top-level handler -/
  | fatal (msg : String)
deriving DecidableEq, Repr

structure MainEnv where
  /-- an exception escapes to the outer `try` of `main` -/
  uncaught : Option TopExn
  configExists : Bool
  configLoads : Bool
  imagesDirExists : Bool
  /-- Patchright or Playwright importable -/
  libAvailable : Bool
  gsEnabled : Bool
  /-- `config.get_enabled_profiles()` non-empty -/
  profilesNonempty : Bool
  /-- some configured profile misses its image -/
  missingImages : Bool
  /-- `none` = the missing-images prompt was interrupted -/
  confirmAnswer : Option String
  /-- the start prompt was completed (not interrupted) -/
  startConfirmed : Bool
deriving DecidableEq, Repr

/-- The missing-images confirmation: declined when the prompt applies
and the (stripped, lowercased) answer differs from `y`, or the prompt
is interrupted. -/
def confirm_declined (gsEnabled missingImages : Bool)
    (answer : Option String) : Bool :=
  if missingImages ∧ ¬ gsEnabled then
    match answer with
    | none => true
    | some ans => pyLower (pyStrip ans) ≠ "y"
  else false

/-- The exit code of `main`. -/
def main_exit (env : MainEnv) : Int :=
  match env.uncaught with
  | some TopExn.interrupt => 130
  | some (TopExn.fatal _) => 1
  | none =>
    if ¬ env.configExists then 1
    else if ¬ env.configLoads then 1
    else if ¬ env.imagesDirExists then 1
    else if ¬ env.libAvailable then 1
    else if ¬ env.profilesNonempty ∧ ¬ env.gsEnabled then 1
    else if confirm_declined env.gsEnabled env.missingImages env.confirmAnswer then 0
    else if ¬ env.startConfirmed then 0
    else 0

/-! ## `DiscordAutomation._verify_message_sent` and
`_find_user_message_with_image` (discord_automation.py 900-1044)

A chat message is its extracted author (`none` when both extraction
attempts fail) and whether it contains an image element.  The
`current_user` argument below is the username after the regex
normalisation of `_verify_message_sent` (lowercased, stripped, reduced
to its first `[a-z0-9_.]{2,32}` run, empty when unknown). -/

structure ChatMsg where
  author : Option String
  hasImage : Bool
deriving DecidableEq, Repr

/-- The bidirectional substring rule of the message search
(discord_automation.py 1019). -/
def author_rule (username authorLower : String) : Bool :=
  containsSub username authorLower || containsSub authorLower username

/-- Whether one message of the scanned window makes
`_find_user_message_with_image` return True: author extracted and
non-empty, an image present, and either no username filter or the
substring rule on the lowercased, stripped author. -/
def msg_accept (username : String) (m : ChatMsg) : Bool :=
  match m.author with
  | none => false
  | some a =>
    if a = "" then false
    else if m.hasImage then
      if username = "" then true
      else author_rule username (pyStrip (pyLower a))
    else false

/-- `_find_user_message_with_image`: scan only the last
`min 5 count` messages, newest first. -/
def find_user_message_with_image (msgs : List ChatMsg) (username : String) : Bool :=
  ((msgs.drop (msgs.length - min 5 msgs.length)).reverse).any (msg_accept username)

/-- `_last_message_has_image`. -/
def last_message_has_image (msgs : List ChatMsg) : Bool :=
  match msgs.getLast? with
  | some m => m.hasImage
  | none => false

/-- `_verify_message_sent` (container `none` = chat container not
found). -/
def verify_message_sent (current_user : String)
    (container : Option (List ChatMsg)) : Bool × String :=
  match container with
  | none => (false, "Chat container not found")
  | some msgs =>
    if find_user_message_with_image msgs current_user then
      (true, "Image from current user found in chat")
    else if current_user = "" ∧ last_message_has_image msgs then
      (true, "Image found in last message")
    else (false, "Message not found in chat")

end RailsRPA

namespace RailsRPA

/-- C3: identity verification matches iff, after lowercasing, stripping
surrounding whitespace and dropping a `#`-discriminator from both
strings, one is a contiguous substring of the other (equality is the
reflexive case of containment, and both containment directions count);
in particular the four concrete scenarios of the claim hold, and the
expected-vs-detected example does not report a mismatch. -/
theorem verify_username_substring_rule :
    (∀ e a, username_is_match e a = true ↔
      ((clean_username e).data <:+: (clean_username a).data ∨
       (clean_username a).data <:+: (clean_username e).data)) ∧
    username_is_match "abc" "abcXyzOnline" = true ∧
    username_is_match "ABC" "xyzabc" = true ∧
    username_is_match "abc" "xyz" = false ∧
    verify_username "alice" (some "alice_dev#0001 • Online") =
      (true, "alice_dev#0001 • Online", "Username verified: alice") := by
  refine ⟨?_, by decide, by decide, by decide, by decide⟩
  intro e a
  unfold username_is_match containsSub
  simp only [Bool.or_eq_true, decide_eq_true_eq]
  constructor
  · rintro ((h | h) | h)
    · exact Or.inl (h ▸ List.infix_rfl)
    · exact Or.inl h
    · exact Or.inr h
  · rintro (h | h)
    · exact Or.inl (Or.inr h)
    · exact Or.inr h

/-- C9: the profile id and the serial number are mutually exclusive in
the request parameters, serial number (stringified) taking precedence;
with only a (truthy) profile id the request carries `user_id` alone;
with neither identifier `start_profile` fails before issuing a request. -/
theorem profile_params_serial_precedence :
    (∀ (pid : Option String) (sn : Int ⊕ String),
      get_profile_params pid (some sn) = [("serial_number", pyStrOfSerial sn)]) ∧
    (∀ p : String, p ≠ "" →
      get_profile_params (some p) none = [("user_id", p)]) ∧
    (∀ pid : Option String, (pid = none ∨ pid = some "") →
      start_profile_request pid none = none) := by
  refine ⟨fun pid sn => rfl, fun p hp => ?_, fun pid hpid => ?_⟩
  · simp [get_profile_params, hp]
  · simp [start_profile_request, hpid]

/-- Witness for C9 at concrete inputs. -/
theorem profile_params_serial_precedence_witness :
    get_profile_params (some "i16to9p") (some (Sum.inl 27)) =
      [("serial_number", "27")] ∧
    get_profile_params (some "i16to9p") none = [("user_id", "i16to9p")] ∧
    start_profile_request none none = none :=
  ⟨profile_params_serial_precedence.1 (some "i16to9p") (Sum.inl 27),
   profile_params_serial_precedence.2.1 "i16to9p" (by decide),
   profile_params_serial_precedence.2.2 none (Or.inl rfl)⟩

/-- `takeWhile` swallows a block that satisfies the predicate and stops
at the first failing element. -/
theorem takeWhile_append_stop {f : Char → Bool} :
    ∀ (l₁ : List Char) (x : Char) (l₂ : List Char),
      (∀ a ∈ l₁, f a = true) → f x = false →
      (l₁ ++ x :: l₂).takeWhile f = l₁ := by
  intro l₁ x l₂ h₁ hx
  induction l₁ with
  | nil => simp [List.takeWhile_cons, hx]
  | cons a l ih =>
    have ha : f a = true := h₁ a (by simp)
    simp [List.takeWhile_cons, ha, ih (fun b hb => h₁ b (by simp [hb]))]

/-- Splitting `host:portStr` at the last colon recovers host and port
when the port part has no colon. -/
theorem rsplit_colon_append (host portStr : String)
    (hnc : ∀ c ∈ portStr.data, c ≠ ':') :
    rsplit_colon (host ++ ":" ++ portStr).data =
      some (host.data, portStr.data) := by
  have hdata : (host ++ ":" ++ portStr).data =
      (host.data ++ [':']) ++ portStr.data := by
    rw [String.data_append, String.data_append]
  have htw : (((host.data ++ [':']) ++ portStr.data).reverse.takeWhile
      (· ≠ ':')) = portStr.data.reverse := by
    have hrev : ((host.data ++ [':']) ++ portStr.data).reverse =
        portStr.data.reverse ++ ':' :: host.data.reverse := by
      simp [List.reverse_append]
    rw [hrev]
    exact takeWhile_append_stop _ ':' _
      (fun a ha => by
        simpa using hnc a (List.mem_reverse.mp ha))
      (by simp)
  unfold rsplit_colon
  rw [hdata, htw]
  simp only [List.reverse_reverse]
  have hne : portStr.data.length ≠
      ((host.data ++ [':']) ++ portStr.data).length := by
    simp
    omega
  rw [if_neg hne]
  have htake : ((host.data ++ [':']) ++ portStr.data).length -
      portStr.data.length - 1 = host.data.length := by
    simp
    omega
  rw [htake]
  have hleft : List.take host.data.length ((host.data ++ [':']) ++ portStr.data)
      = host.data := by
    rw [List.append_assoc]
    exact List.take_left ..
  rw [hleft]

/-- A scheme-prefixed endpoint passes through unchanged. -/
theorem format_ws_scheme_test (e : String) (dp : Option Nat)
    (pr : Option (Option String)) (hs : has_url_scheme e = true) :
    format_ws_endpoint e dp pr = e := by
  by_cases he : e = ""
  · simp [format_ws_endpoint, he]
  · simp [format_ws_endpoint, he, hs]

/-- A scheme-less `host:digits` endpoint reduces to the probe outcome
for the parsed host and port. -/
theorem format_ws_hostport_test (host portStr : String) (dp : Option Nat)
    (pr : Option (Option String))
    (hps : portStr ≠ "") (hdig : portStr.data.all Char.isDigit = true)
    (hns : has_url_scheme (host ++ ":" ++ portStr) = false) :
    format_ws_endpoint (host ++ ":" ++ portStr) dp pr =
      probe_result host
        (portStr.data.foldl (fun a c => a * 10 + (c.toNat - 48)) 0) pr := by
  have hnc : ∀ c ∈ portStr.data, c ≠ ':' := by
    intro c hc heq
    have hd := List.all_eq_true.mp hdig c hc
    subst heq
    simp at hd
  have hpd : portStr.data ≠ [] := by
    intro h
    apply hps
    cases portStr with
    | mk d => simp at h; subst h; rfl
  have hne0 : (host ++ ":" ++ portStr) ≠ "" := by
    intro h
    have := congrArg String.data h
    rw [String.data_append, String.data_append] at this
    simp at this
  have hparse : parse_digits portStr.data =
      some (portStr.data.foldl (fun a c => a * 10 + (c.toNat - 48)) 0) := by
    unfold parse_digits
    rw [if_pos ⟨hpd, hdig⟩]
  have hmk : (⟨host.data⟩ : String) = host := by cases host; rfl
  unfold format_ws_endpoint
  rw [if_neg hne0, if_neg (by simp [hns]), rsplit_colon_append host portStr hnc]
  simp only [hparse, hmk]

/-- C5 (amended): endpoint strings that already carry a URL scheme are
returned unchanged; a scheme-less `host:port` string is resolved
through the capability probe — a 200 probe with a non-empty
`webSocketDebuggerUrl` is returned verbatim, while a failed probe or
one whose body lacks the field falls back to `http://host:port`; a
probe outcome always yields a usable string, never a start failure. -/
theorem ws_endpoint_resolution :
    (∀ (e : String) (dp : Option Nat) (pr : Option (Option String)),
      has_url_scheme e = true → format_ws_endpoint e dp pr = e) ∧
    (∀ (host portStr : String) (dp : Option Nat),
      portStr ≠ "" → portStr.data.all Char.isDigit = true →
      has_url_scheme (host ++ ":" ++ portStr) = false →
      (∀ u : String, u ≠ "" →
        format_ws_endpoint (host ++ ":" ++ portStr) dp (some (some u)) = u) ∧
      (∀ pr : Option (Option String), pr = none ∨ pr = some none →
        format_ws_endpoint (host ++ ":" ++ portStr) dp pr =
          "http://" ++ host ++ ":" ++
            toString (portStr.data.foldl (fun a c => a * 10 + (c.toNat - 48)) 0))) := by
  refine ⟨format_ws_scheme_test, fun host portStr dp hps hdig hns =>
    ⟨fun u hu => ?_, fun pr hpr => ?_⟩⟩
  · rw [format_ws_hostport_test host portStr dp _ hps hdig hns]
    simp [probe_result, hu]
  · rw [format_ws_hostport_test host portStr dp _ hps hdig hns]
    rcases hpr with h | h <;> subst h <;> rfl

/-- Witness for C5 at concrete endpoints. -/
theorem ws_endpoint_resolution_witness :
    format_ws_endpoint "ws://127.0.0.1:5001/devtools" none none =
      "ws://127.0.0.1:5001/devtools" ∧
    format_ws_endpoint "127.0.0.1:9222" none (some (some "ws://real/url")) =
      "ws://real/url" ∧
    format_ws_endpoint "127.0.0.1:9222" none none = "http://127.0.0.1:9222" :=
  ⟨ws_endpoint_resolution.1 _ none none (by decide),
   (ws_endpoint_resolution.2 "127.0.0.1" "9222" none (by decide) (by decide)
     (by decide)).1 "ws://real/url" (by decide),
   (ws_endpoint_resolution.2 "127.0.0.1" "9222" none (by decide) (by decide)
     (by decide)).2 none (Or.inl rfl)⟩

/-- C5 counterexample: a 200 probe whose body carries the
`webSocketDebuggerUrl` field with an empty value is not returned
verbatim — the code treats the empty string as falsy and falls back to
`http://host:port`. -/
theorem ws_endpoint_probe_empty_field_counterexample :
    format_ws_endpoint "127.0.0.1:9222" none (some (some "")) =
      "http://127.0.0.1:9222" ∧
    format_ws_endpoint "127.0.0.1:9222" none (some (some "")) ≠ "" := by
  decide

/-- C6 (amended): on a code-0 response `start_profile` picks the
endpoint trying the `ws` keys in the order `playwright`, `selenium`,
`puppeteer`, `webdriver`, taking the first key whose value is a
non-empty string (a present but empty value is skipped, as Python `or`
treats it as falsy); it fails without connection info when the `ws` map
is empty or no key holds a non-empty value, and when the response code
is non-zero. -/
theorem start_profile_ws_priority :
    (∀ (resp : StartResponse) (pr : Option (Option String)),
      resp.code ≠ 0 → start_profile_model resp pr = none) ∧
    (∀ pr : Option (Option String), start_profile_model ⟨0, none⟩ pr = none) ∧
    (∀ (d : WsData) (pr : Option (Option String)), d.ws = [] →
      start_profile_model ⟨0, some d⟩ pr = none) ∧
    (∀ (d : WsData) (pr : Option (Option String)) (e : String), d.ws ≠ [] →
      dict_get "playwright" d.ws = some e → e ≠ "" →
      start_profile_model ⟨0, some d⟩ pr =
        some ⟨format_ws_endpoint e d.debug_port pr, d.debug_port, d.webdriver⟩) ∧
    (∀ (d : WsData) (pr : Option (Option String)) (e : String), d.ws ≠ [] →
      truthy (dict_get "playwright" d.ws) = false →
      dict_get "selenium" d.ws = some e → e ≠ "" →
      start_profile_model ⟨0, some d⟩ pr =
        some ⟨format_ws_endpoint e d.debug_port pr, d.debug_port, d.webdriver⟩) ∧
    (∀ (d : WsData) (pr : Option (Option String)) (e : String), d.ws ≠ [] →
      truthy (dict_get "playwright" d.ws) = false →
      truthy (dict_get "selenium" d.ws) = false →
      dict_get "puppeteer" d.ws = some e → e ≠ "" →
      start_profile_model ⟨0, some d⟩ pr =
        some ⟨format_ws_endpoint e d.debug_port pr, d.debug_port, d.webdriver⟩) ∧
    (∀ (d : WsData) (pr : Option (Option String)) (e : String), d.ws ≠ [] →
      truthy (dict_get "playwright" d.ws) = false →
      truthy (dict_get "selenium" d.ws) = false →
      truthy (dict_get "puppeteer" d.ws) = false →
      dict_get "webdriver" d.ws = some e → e ≠ "" →
      start_profile_model ⟨0, some d⟩ pr =
        some ⟨format_ws_endpoint e d.debug_port pr, d.debug_port, d.webdriver⟩) ∧
    (∀ (d : WsData) (pr : Option (Option String)),
      truthy (dict_get "playwright" d.ws) = false →
      truthy (dict_get "selenium" d.ws) = false →
      truthy (dict_get "puppeteer" d.ws) = false →
      truthy (dict_get "webdriver" d.ws) = false →
      start_profile_model ⟨0, some d⟩ pr = none) := by
  have truthy_some : ∀ {e : String}, e ≠ "" → truthy (some e) = true := by
    intro e he
    simp [truthy, he]
  refine ⟨?_, ?_, ?_, ?_, ?_, ?_, ?_, ?_⟩
  · intro resp pr hc
    simp [start_profile_model, hc]
  · intro pr
    simp [start_profile_model]
  · intro d pr hws
    simp [start_profile_model, hws]
  · intro d pr e hws hpw he
    simp [start_profile_model, hws, hpw, truthy_some he]
  · intro d pr e hws hpw hsel he
    simp [start_profile_model, py_or, hws, hpw, hsel, truthy_some he]
  · intro d pr e hws hpw hsel hpup he
    simp [start_profile_model, py_or, hws, hpw, hsel, hpup, truthy_some he]
  · intro d pr e hws hpw hsel hpup hwd he
    simp [start_profile_model, py_or, hws, hpw, hsel, hpup, hwd, truthy_some he]
  · intro d pr hpw hsel hpup hwd
    by_cases hws : d.ws = []
    · simp [start_profile_model, hws]
    · simp [start_profile_model, py_or, hws, hpw, hsel, hpup, hwd]

/-- Witness for C6 at concrete responses. -/
theorem start_profile_ws_priority_witness :
    start_profile_model
      ⟨0, some ⟨[("selenium", "ws://alt:1"), ("playwright", "ws://pw:2")],
        none, none⟩⟩ none =
      some ⟨"ws://pw:2", none, none⟩ ∧
    start_profile_model ⟨1, some ⟨[("playwright", "ws://pw:2")], none, none⟩⟩
      none = none ∧
    start_profile_model ⟨0, some ⟨[], none, none⟩⟩ none = none :=
  ⟨start_profile_ws_priority.2.2.2.1
      ⟨[("selenium", "ws://alt:1"), ("playwright", "ws://pw:2")], none, none⟩
      none "ws://pw:2" (by decide) (by decide) (by decide),
   start_profile_ws_priority.1 ⟨1, some ⟨[("playwright", "ws://pw:2")], none, none⟩⟩
      none (by decide),
   start_profile_ws_priority.2.2.1 ⟨[], none, none⟩ none rfl⟩

/-- C6 counterexample: with `ws = \x7b"playwright": "", "selenium":
"ws://alt:9222"\x7d` the first present key is skipped and the selenium
value is used, so the claim as stated (first present value) fails. -/
theorem start_profile_empty_playwright_counterexample :
    start_profile_model
      ⟨0, some ⟨[("playwright", ""), ("selenium", "ws://alt:9222")], none, none⟩⟩
      none = some ⟨"ws://alt:9222", none, none⟩ ∧
    dict_get "playwright" [("playwright", ""), ("selenium", "ws://alt:9222")] =
      some "" := by
  decide

end RailsRPA

namespace RailsRPA

/-- Infixes extend along a right append. -/
theorem infix_append_right {α : Type} {l a : List α} (b : List α)
    (h : l <:+: a) : l <:+: a ++ b := by
  obtain ⟨s, t, rfl⟩ := h
  exact ⟨s, t ++ b, by simp⟩

/-- Every failure message of the denial scan classifies as
channel-unavailable in the orchestrator. -/
theorem check_access_denied_classify (a : AccessState)
    (h : (check_channel_access a).1 = false) :
    classify_nav_status (check_channel_access a).2 = "CHANNEL_UNAVAILABLE" := by
  unfold check_channel_access at h ⊢
  by_cases hr : a.checkRaises
  · simp [hr] at h
  · simp only [hr, if_false, Bool.false_eq_true] at h ⊢
    match hsel : a.errorSel with
    | some (some t) =>
      simp only [hsel]
      have hsub : containsSub "unavailable"
          (pyLower ("Channel unavailable: " ++ pyTake t 100)) = true := by
        unfold containsSub
        simp only [decide_eq_true_eq]
        have hd : (pyLower ("Channel unavailable: " ++ pyTake t 100)).data =
            ("Channel unavailable: ".data.map Char.toLower) ++
              ((pyTake t 100).data.map Char.toLower) := by
          simp [pyLower, String.data_append]
        rw [hd]
        exact infix_append_right _ (by decide)
      simp [classify_nav_status, hsub]
    | some none =>
      simp only [hsel]
      decide
    | none =>
      simp only [hsel] at h ⊢
      by_cases hdm : a.redirectedToDMs
      · simp only [hdm, if_true]
        decide
      · simp [hdm] at h

/-- C4: in `navigate_to_channel` the denial scan runs before the
chat-marker wait and wins over missing markers — any visible denial
signal (first check or recheck) fails the stage with a message the
orchestrator classifies as CHANNEL_UNAVAILABLE, whatever the marker
state; when neither check finds a denial and no marker appears, the
stage fails with the elements-not-found message, classified as the
generic FAILED. -/
theorem navigate_denial_priority :
    (∀ st : NavState, st.gotoFail = none →
      (check_channel_access st.access1).1 = false →
      navigate_to_channel st = (false, (check_channel_access st.access1).2) ∧
      classify_nav_status (navigate_to_channel st).2 = "CHANNEL_UNAVAILABLE") ∧
    (∀ st : NavState, st.gotoFail = none →
      (check_channel_access st.access1).1 = true →
      st.markerFound = false →
      (check_channel_access st.access2).1 = false →
      navigate_to_channel st = (false, (check_channel_access st.access2).2) ∧
      classify_nav_status (navigate_to_channel st).2 = "CHANNEL_UNAVAILABLE") ∧
    (∀ st : NavState, st.gotoFail = none →
      (check_channel_access st.access1).1 = true →
      (check_channel_access st.access2).1 = true →
      st.markerFound = false →
      navigate_to_channel st = (false, "Channel did not load - elements not found") ∧
      classify_nav_status (navigate_to_channel st).2 = "FAILED") := by
  refine ⟨?_, ?_, ?_⟩
  · intro st hg h1
    have hnav : navigate_to_channel st = (false, (check_channel_access st.access1).2) := by
      simp [navigate_to_channel, hg, h1]
    exact ⟨hnav, by rw [hnav]; exact check_access_denied_classify st.access1 h1⟩
  · intro st hg h1 hm h2
    have hnav : navigate_to_channel st = (false, (check_channel_access st.access2).2) := by
      simp [navigate_to_channel, hg, h1, hm, h2]
    exact ⟨hnav, by rw [hnav]; exact check_access_denied_classify st.access2 h2⟩
  · intro st hg h1 h2 hm
    have hnav : navigate_to_channel st =
        (false, "Channel did not load - elements not found") := by
      simp [navigate_to_channel, hg, h1, hm, h2]
    exact ⟨hnav, by rw [hnav]; decide⟩

/-- Witness for C4 at concrete navigation states. -/
theorem navigate_denial_priority_witness :
    (navigate_to_channel ⟨none, ⟨false, some none, false⟩, false,
        ⟨false, none, false⟩, InputReady.ready⟩ =
      (false, "Channel is not accessible on this profile") ∧
     classify_nav_status (navigate_to_channel ⟨none, ⟨false, some none, false⟩,
        false, ⟨false, none, false⟩, InputReady.ready⟩).2 =
      "CHANNEL_UNAVAILABLE") ∧
    (navigate_to_channel ⟨none, ⟨false, none, false⟩, false,
        ⟨false, none, false⟩, InputReady.ready⟩ =
      (false, "Channel did not load - elements not found") ∧
     classify_nav_status (navigate_to_channel ⟨none, ⟨false, none, false⟩,
        false, ⟨false, none, false⟩, InputReady.ready⟩).2 = "FAILED") :=
  ⟨navigate_denial_priority.1 _ rfl (by decide),
   navigate_denial_priority.2.2 _ rfl (by decide) (by decide) rfl⟩

/-- C2: in stage 4, when both post-send verification attempts fail and
the error scan detects nothing, the stage still returns success; in the
pipeline, a profile with no expected identity whose auth and navigation
succeed and whose upload takes exactly this path ends in the SUCCESS
outcome, not FAILED. -/
theorem upload_inconclusive_success :
    (∀ st : UploadState, st.raised = none → st.fileInputFound = true →
      st.setFilesError = none → st.verify1 = false → st.verify2 = false →
      (check_send_errors st.errState).1 = false →
      upload_and_send_image st = (true, "Image sent (no errors detected)")) ∧
    (∀ (pid img : String) (ps : ProcState) (us : UploadState),
      ps.outerRaise = none → ps.imageFound = true → ps.startOk = true →
      ps.innerRaise = none → ps.contextsNonempty = true → ps.auth.1 = true →
      ps.nav.1 = true →
      us.raised = none → us.fileInputFound = true → us.setFilesError = none →
      us.verify1 = false → us.verify2 = false →
      (check_send_errors us.errState).1 = false →
      ps.upload = upload_and_send_image us →
      (process_profile pid img "" ps).1.status = "SUCCESS") := by
  have part1 : ∀ st : UploadState, st.raised = none → st.fileInputFound = true →
      st.setFilesError = none → st.verify1 = false → st.verify2 = false →
      (check_send_errors st.errState).1 = false →
      upload_and_send_image st = (true, "Image sent (no errors detected)") := by
    intro st hr hf hs h1 h2 herr
    simp [upload_and_send_image, hr, hf, hs, h1, h2, herr]
  refine ⟨part1, ?_⟩
  intro pid img ps us ho hi hst hin hc ha hn ur uf us' u1 u2 uerr hup
  have hup1 : ps.upload.1 = true := by
    rw [hup, part1 us ur uf us' u1 u2 uerr]
  simp [process_profile, ho, hi, hst, hin, hc, ha, hn, hup1]

/-- Witness for C2 at a concrete upload state and pipeline state. -/
theorem upload_inconclusive_success_witness :
    upload_and_send_image ⟨none, true, none, false, false, ⟨false, none, none⟩⟩ =
      (true, "Image sent (no errors detected)") ∧
    (process_profile "p1" "img" ""
      ⟨none, true, true, none, true, (true, "ok"), true, ⟨true, "", ""⟩,
        (true, "ok"),
        upload_and_send_image ⟨none, true, none, false, false, ⟨false, none, none⟩⟩⟩).1.status =
      "SUCCESS" :=
  ⟨upload_inconclusive_success.1 ⟨none, true, none, false, false,
      ⟨false, none, none⟩⟩ rfl rfl rfl rfl rfl (by decide),
   upload_inconclusive_success.2 "p1" "img"
     ⟨none, true, true, none, true, (true, "ok"), true, ⟨true, "", ""⟩,
       (true, "ok"),
       upload_and_send_image ⟨none, true, none, false, false, ⟨false, none, none⟩⟩⟩
     ⟨none, true, none, false, false, ⟨false, none, none⟩⟩
     rfl rfl rfl rfl rfl rfl rfl rfl rfl rfl rfl rfl (by decide) rfl⟩

/-- C1 (amended): for every profile whose profile id is non-empty, the
per-profile pipeline returns exactly one outcome — its status one of
the five defined variants — and the `finally` block issues exactly one
stop request, whatever combination of stage failures or exceptions
occurred; the stop count 1 also shows the stop is not retried. -/
theorem process_profile_single_outcome_single_stop :
    ∀ (pid img eu : String) (st : ProcState), pid ≠ "" →
      (process_profile pid img eu st).2 = 1 ∧
      (process_profile pid img eu st).1.status ∈
        ["SUCCESS", "FAILED", "NOT_AUTHENTICATED", "CHANNEL_UNAVAILABLE",
          "USERNAME_MISMATCH"] := by
  intro pid img eu st hp
  constructor
  · simp [process_profile, hp]
  · simp only [process_profile, classify_nav_status]
    (repeat' split) <;> simp

/-- Witness for C1 at a concrete profile and state. -/
theorem process_profile_stop_witness :
    (process_profile "p1" "img" ""
      ⟨none, true, true, none, true, (true, "ok"), true, ⟨true, "", ""⟩,
        (true, "ok"), (true, "ok")⟩).2 = 1 ∧
    (process_profile "p1" "img" ""
      ⟨none, true, true, none, true, (true, "ok"), true, ⟨true, "", ""⟩,
        (true, "ok"), (true, "ok")⟩).1.status ∈
      ["SUCCESS", "FAILED", "NOT_AUTHENTICATED", "CHANNEL_UNAVAILABLE",
        "USERNAME_MISMATCH"] :=
  process_profile_single_outcome_single_stop "p1" "img" "" _ (by decide)

/-- C1 counterexample: a profile carrying an empty (falsy) profile id —
reachable from a config entry identified only by serial number — still
produces exactly one outcome, but the guarded `finally` block issues no
stop request at all, contradicting the unconditional one-stop claim. -/
theorem process_profile_empty_id_no_stop_counterexample :
    (process_profile "" "img" ""
      ⟨none, false, false, none, false, (false, ""), false, ⟨true, "", ""⟩,
        (false, ""), (false, "")⟩).2 = 0 ∧
    (process_profile "" "img" ""
      ⟨none, false, false, none, false, (false, ""), false, ⟨true, "", ""⟩,
        (false, ""), (false, "")⟩).1.status = "FAILED" := by
  decide

end RailsRPA

namespace RailsRPA

/-- All statistics counters are non-negative. -/
def allNonneg (s : Stats) : Prop :=
  0 ≤ s.total ∧ 0 ≤ s.successful ∧ 0 ≤ s.failed ∧ 0 ≤ s.skipped ∧
  0 ≤ s.not_authenticated ∧ 0 ≤ s.channel_unavailable ∧ 0 ≤ s.username_mismatch

/-- Every result dispatch adds exactly one to `successful + failed`. -/
theorem handle_result_stats_sum (s : Stats) (st : String) :
    (handle_result_stats s st).successful + (handle_result_stats s st).failed =
      s.successful + s.failed + 1 := by
  unfold handle_result_stats
  split_ifs <;> simp <;> omega

/-- A result dispatch never touches `total`. -/
theorem handle_result_stats_total (s : Stats) (st : String) :
    (handle_result_stats s st).total = s.total := by
  unfold handle_result_stats
  split_ifs <;> rfl

/-- Counter updates preserve non-negativity. -/
theorem applyStatEvent_nonneg (s : Stats) (e : StatEvent) (h : allNonneg s) :
    allNonneg (applyStatEvent s e) := by
  cases e with
  | incTotal =>
    unfold allNonneg at h ⊢
    simp [applyStatEvent]
    omega
  | finish st =>
    unfold allNonneg at h ⊢
    have hred : applyStatEvent s (StatEvent.finish st) = handle_result_stats s st := rfl
    rw [hred]
    unfold handle_result_stats
    split_ifs <;> simp <;> omega

/-- `total` after a trace equals the initial value plus the number of
`incTotal` events. -/
theorem runStatEvents_total :
    ∀ (es : List StatEvent) (s : Stats),
      (runStatEvents s es).total = s.total + countTotals es := by
  intro es
  induction es with
  | nil => intro s; simp [runStatEvents, countTotals]
  | cons e t ih =>
    intro s
    have hstep : runStatEvents s (e :: t) = runStatEvents (applyStatEvent s e) t := rfl
    rw [hstep, ih]
    cases e with
    | incTotal => simp [applyStatEvent, countTotals, List.countP_cons]; omega
    | finish st =>
      simp [applyStatEvent, countTotals, List.countP_cons, handle_result_stats_total]

/-- `successful + failed` after a trace equals the initial value plus
the number of result dispatches. -/
theorem runStatEvents_sum :
    ∀ (es : List StatEvent) (s : Stats),
      (runStatEvents s es).successful + (runStatEvents s es).failed =
        s.successful + s.failed + countFinishes es := by
  intro es
  induction es with
  | nil => intro s; simp [runStatEvents, countFinishes]
  | cons e t ih =>
    intro s
    have hstep : runStatEvents s (e :: t) = runStatEvents (applyStatEvent s e) t := rfl
    rw [hstep, ih]
    cases e with
    | incTotal => simp [applyStatEvent, countFinishes, List.countP_cons]
    | finish st =>
      have := handle_result_stats_sum s st
      simp [applyStatEvent, countFinishes, List.countP_cons]
      omega

/-- Non-negativity is preserved along any trace. -/
theorem runStatEvents_nonneg :
    ∀ (es : List StatEvent) (s : Stats), allNonneg s →
      allNonneg (runStatEvents s es) := by
  intro es
  induction es with
  | nil => intro s h; exact h
  | cons e t ih =>
    intro s h
    exact ih (applyStatEvent s e) (applyStatEvent_nonneg s e h)

/-- C7: along every well-formed run trace (each profile increments
`total` before its result is dispatched) the counters never go negative
and `successful + failed ≤ total` holds at every prefix; each failure
sub-classification (NOT_AUTHENTICATED, CHANNEL_UNAVAILABLE,
USERNAME_MISMATCH) increments both its own counter and `failed`.  Each
`StatEvent` is one lock-protected `_update_stats` transaction. -/
theorem stats_invariant :
    (∀ es : List StatEvent, statTraceWF es = true → ∀ n : Nat,
      allNonneg (runStatEvents initStats (es.take n)) ∧
      (runStatEvents initStats (es.take n)).successful +
          (runStatEvents initStats (es.take n)).failed ≤
        (runStatEvents initStats (es.take n)).total) ∧
    (∀ s : Stats,
      handle_result_stats s "NOT_AUTHENTICATED" =
        { s with not_authenticated := s.not_authenticated + 1,
                 failed := s.failed + 1 } ∧
      handle_result_stats s "CHANNEL_UNAVAILABLE" =
        { s with channel_unavailable := s.channel_unavailable + 1,
                 failed := s.failed + 1 } ∧
      handle_result_stats s "USERNAME_MISMATCH" =
        { s with username_mismatch := s.username_mismatch + 1,
                 failed := s.failed + 1 }) := by
  constructor
  · intro es hwf n
    have hnn : allNonneg (runStatEvents initStats (es.take n)) :=
      runStatEvents_nonneg _ _ (by simp [allNonneg, initStats])
    refine ⟨hnn, ?_⟩
    have hall := List.all_eq_true.mp hwf
    have key : countFinishes (es.take n) ≤ countTotals (es.take n) := by
      by_cases hn : n ≤ es.length
      · have := hall n (List.mem_range.mpr (by omega))
        simpa using this
      · have h1 := hall es.length (List.mem_range.mpr (by omega))
        have h2 : es.take n = es.take es.length := by
          rw [List.take_length, List.take_of_length_le (by omega)]
        rw [h2]
        simpa using h1
    have ht := runStatEvents_total (es.take n) initStats
    have hs := runStatEvents_sum (es.take n) initStats
    have h1 : initStats.total = 0 := rfl
    have h2 : initStats.successful = 0 := rfl
    have h3 : initStats.failed = 0 := rfl
    omega
  · intro s
    refine ⟨?_, ?_, ?_⟩ <;> simp [handle_result_stats]

/-- Witness for C7 at a concrete well-formed trace. -/
theorem stats_invariant_witness :
    (allNonneg (runStatEvents initStats
        ([StatEvent.incTotal, StatEvent.finish "SUCCESS", StatEvent.incTotal,
          StatEvent.finish "NOT_AUTHENTICATED"].take 4)) ∧
      (runStatEvents initStats
        ([StatEvent.incTotal, StatEvent.finish "SUCCESS", StatEvent.incTotal,
          StatEvent.finish "NOT_AUTHENTICATED"].take 4)).successful +
          (runStatEvents initStats
        ([StatEvent.incTotal, StatEvent.finish "SUCCESS", StatEvent.incTotal,
          StatEvent.finish "NOT_AUTHENTICATED"].take 4)).failed ≤
        (runStatEvents initStats
        ([StatEvent.incTotal, StatEvent.finish "SUCCESS", StatEvent.incTotal,
          StatEvent.finish "NOT_AUTHENTICATED"].take 4)).total) ∧
    (handle_result_stats initStats "NOT_AUTHENTICATED" =
        { initStats with not_authenticated := initStats.not_authenticated + 1,
                         failed := initStats.failed + 1 } ∧
      handle_result_stats initStats "CHANNEL_UNAVAILABLE" =
        { initStats with channel_unavailable := initStats.channel_unavailable + 1,
                         failed := initStats.failed + 1 } ∧
      handle_result_stats initStats "USERNAME_MISMATCH" =
        { initStats with username_mismatch := initStats.username_mismatch + 1,
                         failed := initStats.failed + 1 }) :=
  ⟨stats_invariant.1 [StatEvent.incTotal, StatEvent.finish "SUCCESS",
      StatEvent.incTotal, StatEvent.finish "NOT_AUTHENTICATED"] (by decide) 4,
   stats_invariant.2 initStats⟩

/-- C8: the process exit code is 130 when a keyboard interrupt reaches
the top level, 1 for any other uncaught exception and for each fatal
setup error (missing config, failed config load, missing images
directory, no automation library, no enabled profiles with Google
Sheets disabled), and 0 both on normal completion and when the user
declines a confirmation (missing-images answer other than `y`, an
interrupted missing-images prompt, or an interrupted start prompt). -/
theorem main_exit_codes :
    (∀ env : MainEnv, env.uncaught = some TopExn.interrupt →
      main_exit env = 130) ∧
    (∀ (env : MainEnv) (m : String), env.uncaught = some (TopExn.fatal m) →
      main_exit env = 1) ∧
    (∀ env : MainEnv, env.uncaught = none → env.configExists = false →
      main_exit env = 1) ∧
    (∀ env : MainEnv, env.uncaught = none → env.configLoads = false →
      main_exit env = 1) ∧
    (∀ env : MainEnv, env.uncaught = none → env.imagesDirExists = false →
      main_exit env = 1) ∧
    (∀ env : MainEnv, env.uncaught = none → env.libAvailable = false →
      main_exit env = 1) ∧
    (∀ env : MainEnv, env.uncaught = none → env.profilesNonempty = false →
      env.gsEnabled = false → main_exit env = 1) ∧
    (∀ (env : MainEnv) (ans : String), env.uncaught = none →
      env.configExists = true → env.configLoads = true →
      env.imagesDirExists = true → env.libAvailable = true →
      env.profilesNonempty = true → env.gsEnabled = false →
      env.missingImages = true → env.confirmAnswer = some ans →
      pyLower (pyStrip ans) ≠ "y" → main_exit env = 0) ∧
    (∀ env : MainEnv, env.uncaught = none →
      env.configExists = true → env.configLoads = true →
      env.imagesDirExists = true → env.libAvailable = true →
      env.profilesNonempty = true → env.gsEnabled = false →
      env.missingImages = true → env.confirmAnswer = none →
      main_exit env = 0) ∧
    (∀ env : MainEnv, env.uncaught = none →
      env.configExists = true → env.configLoads = true →
      env.imagesDirExists = true → env.libAvailable = true →
      env.profilesNonempty = true →
      confirm_declined env.gsEnabled env.missingImages env.confirmAnswer = false →
      env.startConfirmed = false → main_exit env = 0) ∧
    (∀ env : MainEnv, env.uncaught = none →
      env.configExists = true → env.configLoads = true →
      env.imagesDirExists = true → env.libAvailable = true →
      env.profilesNonempty = true →
      confirm_declined env.gsEnabled env.missingImages env.confirmAnswer = false →
      env.startConfirmed = true → main_exit env = 0) := by
  refine ⟨?_, ?_, ?_, ?_, ?_, ?_, ?_, ?_, ?_, ?_, ?_⟩
  · intro env h
    simp [main_exit, h]
  · intro env m h
    simp [main_exit, h]
  · intro env h hc
    simp [main_exit, h, hc]
  · intro env h hc
    simp only [main_exit, h]
    split_ifs <;> simp_all
  · intro env h hc
    simp only [main_exit, h]
    split_ifs <;> simp_all
  · intro env h hc
    simp only [main_exit, h]
    split_ifs <;> simp_all
  · intro env h hp hg
    simp only [main_exit, h]
    split_ifs <;> simp_all
  · intro env ans h h1 h2 h3 h4 h5 h6 h7 h8 h9
    simp [main_exit, confirm_declined, h, h1, h2, h3, h4, h5, h6, h7, h8, h9]
  · intro env h h1 h2 h3 h4 h5 h6 h7 h8
    simp [main_exit, confirm_declined, h, h1, h2, h3, h4, h5, h6, h7, h8]
  · intro env h h1 h2 h3 h4 h5 hd hs
    simp [main_exit, h, h1, h2, h3, h4, h5, hd, hs]
  · intro env h h1 h2 h3 h4 h5 hd hs
    simp [main_exit, h, h1, h2, h3, h4, h5, hd, hs]

/-- Witness for C8 at concrete environments. -/
theorem main_exit_codes_witness :
    main_exit ⟨some TopExn.interrupt, true, true, true, true, false, true,
      false, none, true⟩ = 130 ∧
    main_exit ⟨none, false, true, true, true, false, true, false, none, true⟩ = 1 ∧
    main_exit ⟨none, true, true, true, true, false, true, true, some "n", true⟩ = 0 ∧
    main_exit ⟨none, true, true, true, true, false, true, false, none, true⟩ = 0 :=
  ⟨main_exit_codes.1 _ rfl,
   main_exit_codes.2.2.1 _ rfl rfl,
   main_exit_codes.2.2.2.2.2.2.2.1 _ "n" rfl rfl rfl rfl rfl rfl rfl rfl rfl
     (by decide),
   main_exit_codes.2.2.2.2.2.2.2.2.2.2 _ rfl rfl rfl rfl rfl rfl (by decide) rfl⟩

/-- A single message is accepted by the scan exactly when its author was
extracted non-empty, it contains an image, and either no username is
known or the bidirectional substring rule holds. -/
theorem msg_accept_iff (u : String) (m : ChatMsg) :
    msg_accept u m = true ↔
      ∃ a : String, m.author = some a ∧ a ≠ "" ∧ m.hasImage = true ∧
        (u = "" ∨ author_rule u (pyStrip (pyLower a)) = true) := by
  rcases m with ⟨author, img⟩
  cases author with
  | none => simp [msg_accept]
  | some a =>
    by_cases ha : a = ""
    · simp [msg_accept, ha]
    · by_cases himg : img
      · by_cases hu : u = ""
        · simp [msg_accept, ha, himg, hu]
        · simp [msg_accept, ha, himg, hu]
      · simp [msg_accept, ha, himg]

/-- C10: delivery verification inspects only the last `min 5 count`
messages — prepending older messages never changes the result — and
succeeds exactly when a message of that window has an extracted
non-empty author, an image, and either no known username or the
bidirectional substring rule; when no username is known, an image in
the very last message is accepted even with no extractable author. -/
theorem message_verification_window :
    (∀ (pre msgs : List ChatMsg) (u : String), 5 ≤ msgs.length →
      find_user_message_with_image (pre ++ msgs) u =
        find_user_message_with_image msgs u) ∧
    (∀ (msgs : List ChatMsg) (u : String),
      find_user_message_with_image msgs u = true ↔
        ∃ m ∈ msgs.drop (msgs.length - min 5 msgs.length), ∃ a : String,
          m.author = some a ∧ a ≠ "" ∧ m.hasImage = true ∧
          (u = "" ∨ author_rule u (pyStrip (pyLower a)) = true)) ∧
    (∀ (msgs : List ChatMsg) (m : ChatMsg), msgs.getLast? = some m →
      m.hasImage = true → (verify_message_sent "" (some msgs)).1 = true) := by
  refine ⟨?_, ?_, ?_⟩
  · intro pre msgs u h5
    unfold find_user_message_with_image
    have h1 : (pre ++ msgs).length - min 5 (pre ++ msgs).length =
        pre.length + (msgs.length - 5) := by
      simp
      omega
    have h2 : msgs.length - min 5 msgs.length = msgs.length - 5 := by
      omega
    rw [h1, h2, List.drop_append]
  · intro msgs u
    unfold find_user_message_with_image
    rw [List.any_eq_true]
    constructor
    · rintro ⟨m, hm, hacc⟩
      exact ⟨m, List.mem_reverse.mp hm, (msg_accept_iff u m).mp hacc⟩
    · rintro ⟨m, hm, hex⟩
      exact ⟨m, List.mem_reverse.mpr hm, (msg_accept_iff u m).mpr hex⟩
  · intro msgs m hlast himg
    have hl : last_message_has_image msgs = true := by
      unfold last_message_has_image
      rw [hlast]
      exact himg
    by_cases hf : find_user_message_with_image msgs "" = true
    · simp [verify_message_sent, hf]
    · simp [verify_message_sent, hf, hl]

/-- Witness for C10 at concrete chats. -/
theorem message_verification_window_witness :
    find_user_message_with_image
      ([⟨some "other", false⟩] ++
        [⟨some "bob", false⟩, ⟨some "bob", false⟩, ⟨some "bob", false⟩,
         ⟨some "bob", false⟩, ⟨some "alice", true⟩]) "alice" =
      find_user_message_with_image
        [⟨some "bob", false⟩, ⟨some "bob", false⟩, ⟨some "bob", false⟩,
         ⟨some "bob", false⟩, ⟨some "alice", true⟩] "alice" ∧
    (verify_message_sent "" (some [⟨none, true⟩])).1 = true :=
  ⟨message_verification_window.1 [⟨some "other", false⟩]
      [⟨some "bob", false⟩, ⟨some "bob", false⟩, ⟨some "bob", false⟩,
       ⟨some "bob", false⟩, ⟨some "alice", true⟩] "alice" (by decide),
   message_verification_window.2.2 [⟨none, true⟩] ⟨none, true⟩ rfl rfl⟩

end RailsRPA
